import Mathlib

/-!
Verification of the karl-ai-whatsapp-bot sources.

The two JavaScript files are shallowly embedded here: JS strings become
lists of characters, the message/connection event handlers become pure
functions from their inputs (with the external transport and completion
calls abstracted as explicit outcome parameters), and the observable side
effects (sends, AI calls, scheduled reconnects, pairing requests, stored
records) become explicit return values.
-/

namespace KarlBot

/-- Texts are modelled as lists of characters (JS strings). -/
abbrev Str := List Char

/-- Whitespace characters recognised by the JS trim operation. -/
def isWs (c : Char) : Bool :=
  c = ' ' || c = '\t' || c = '\n' || c = '\r'

/-- JS String.prototype.trim: strip whitespace from both ends. -/
def trim (s : Str) : Str :=
  ((s.dropWhile isWs).reverse.dropWhile isWs).reverse

/-- JS String.prototype.toLowerCase, modelled as per-character lowering. -/
def toLower (s : Str) : Str := s.map Char.toLower

/-- JS String.prototype.includes: containment of needle in haystack. -/
def includes : Str → Str → Bool
  | needle, [] => needle.isEmpty
  | needle, c :: rest => needle.isPrefixOf (c :: rest) || includes needle rest

/-- Containment agrees with the sublist-infix relation. -/
theorem includes_eq_true_iff {n : Str} : ∀ {h : Str}, includes n h = true ↔ n <:+: h := by
  intro h
  induction h with
  | nil =>
      simp [includes, List.infix_nil, List.isEmpty_iff]
  | cons c rest ih =>
      simp [includes, ih, List.infix_cons_iff, List.isPrefixOf_iff_prefix]

/-- A contained string that is itself contained in the needle is contained. -/
theorem includes_of_sub {a b l : Str} (hab : a <:+: b)
    (hb : includes b l = true) : includes a l = true := by
  rw [includes_eq_true_iff] at hb ⊢
  exact hab.trans hb

/-- Containment of "@karl" implies containment of "karl". -/
theorem includes_karl_of_atkarl {l : Str} (h : includes "@karl".data l = true) :
    includes "karl".data l = true :=
  includes_of_sub ⟨['@'], [], rfl⟩ h

/-- A prefix is contained. -/
theorem includes_of_isPrefixOf {n l : Str} (h : n.isPrefixOf l = true) :
    includes n l = true := by
  rw [includes_eq_true_iff]
  have hp : n <+: l := List.isPrefixOf_iff_prefix.mp h
  exact List.IsPrefix.isInfix hp

/-- The prefix "karl " implies containment of "karl". -/
theorem includes_karl_of_karlSpace {l : Str} (h : "karl ".data.isPrefixOf l = true) :
    includes "karl".data l = true := by
  rw [includes_eq_true_iff]
  have hp : "karl ".data <+: l := List.isPrefixOf_iff_prefix.mp h
  have hk : "karl".data <+: l := List.IsPrefix.trans ⟨[' '], rfl⟩ hp
  exact List.IsPrefix.isInfix hk

/-- The prefix "karl," implies containment of "karl". -/
theorem includes_karl_of_karlComma {l : Str} (h : "karl,".data.isPrefixOf l = true) :
    includes "karl".data l = true := by
  rw [includes_eq_true_iff]
  have hp : "karl,".data <+: l := List.isPrefixOf_iff_prefix.mp h
  have hk : "karl".data <+: l := List.IsPrefix.trans ⟨[','], rfl⟩ hp
  exact List.IsPrefix.isInfix hk

/-- Bot display name, the BOT_NAME constant. -/
def BOT_NAME : Str := "KARL AI ASSISTANCE".data

/-- Lowercased trimmed text, the lowerText local of handleMessage. -/
def lowerTrim (text : Str) : Str := trim (toLower text)

/-- Trigger conditions for KARL AI, the triggers array of handleMessage. -/
def triggers (lowerText : Str) : List Bool :=
  [ includes "karl".data lowerText
  , includes "@karl".data lowerText
  , "karl ".data.isPrefixOf lowerText
  , "karl,".data.isPrefixOf lowerText
  , includes "assistant".data lowerText
  , includes "ai ".data lowerText ]

/-- The trigger predicate: triggers.some(Boolean) on the lowercased trimmed text. -/
def triggerFires (text : Str) : Bool := (triggers (lowerTrim text)).any id

/-- Simplified trigger predicate of claim C10: only the containment checks
for "karl", "assistant" and "ai " on the lowercased trimmed text. -/
def simpleTrigger (text : Str) : Bool :=
  includes "karl".data (lowerTrim text) ||
    includes "assistant".data (lowerTrim text) ||
      includes "ai ".data (lowerTrim text)

/-- Claim C1: the trigger predicate evaluates true whenever the lowercased
trimmed text contains "karl", and evaluates false whenever that text
contains none of the configured keywords ("karl", "@karl", prefix "karl "
or "karl,", "assistant", "ai "). -/
theorem trigger_keywords (text : Str) :
    (includes "karl".data (lowerTrim text) = true → triggerFires text = true) ∧
    ((includes "karl".data (lowerTrim text) = false ∧
      includes "@karl".data (lowerTrim text) = false ∧
      "karl ".data.isPrefixOf (lowerTrim text) = false ∧
      "karl,".data.isPrefixOf (lowerTrim text) = false ∧
      includes "assistant".data (lowerTrim text) = false ∧
      includes "ai ".data (lowerTrim text) = false) →
      triggerFires text = false) := by
  constructor
  · intro h
    simp [triggerFires, triggers, h]
  · rintro ⟨h1, h2, h3, h4, h5, h6⟩
    simp [triggerFires, triggers, h1, h2, h3, h4, h5, h6]

/-- Witness for claim C1 at concrete inputs. -/
theorem trigger_keywords_witness :
    triggerFires "Hey KARL!".data = true ∧ triggerFires "hello world".data = false :=
  ⟨(trigger_keywords _).1 (by decide), (trigger_keywords _).2 (by decide)⟩

/-- Claim C10: the implemented trigger predicate is equivalent to the
simplified predicate that only checks containment of "karl", "assistant"
and "ai ", because the "@karl" containment check and the "karl "/"karl,"
prefix checks each imply containment of "karl". -/
theorem trigger_eq_simpleTrigger (text : Str) :
    triggerFires text = simpleTrigger text := by
  have h2 := @includes_karl_of_atkarl (lowerTrim text)
  have h3 := @includes_karl_of_karlSpace (lowerTrim text)
  have h4 := @includes_karl_of_karlComma (lowerTrim text)
  unfold triggerFires triggers simpleTrigger
  cases hb : includes "@karl".data (lowerTrim text) <;>
    cases hc : "karl ".data.isPrefixOf (lowerTrim text) <;>
      cases hd : "karl,".data.isPrefixOf (lowerTrim text) <;>
        simp_all [Bool.or_assoc]

/-- Key of an inbound WhatsApp message, the fields the bot reads. -/
structure MessageKey where
  remoteJid : Str
  fromMe : Bool
  participant : Str
deriving DecidableEq

/-- Content variants the bot extracts text from. -/
structure MessageContent where
  conversation : Option Str
  extendedText : Option Str
  imageCaption : Option Str
  videoCaption : Option Str
deriving DecidableEq

/-- Inbound message object, msg in handleMessage. -/
structure InboundMsg where
  message : Option MessageContent
  key : MessageKey
  pushName : Option Str
deriving DecidableEq

/-- JS a || b for string operands: b when a is undefined or the empty string. -/
def jsOrStr : Option Str → Str → Str
  | none, d => d
  | some s, d => if s.isEmpty then d else s

/-- Text extraction chain of handleMessage: conversation, extended text,
image caption, video caption, else empty. -/
def extractText (m : MessageContent) : Str :=
  jsOrStr m.conversation
    (jsOrStr m.extendedText (jsOrStr m.imageCaption (jsOrStr m.videoCaption [])))

/-- Extracted text of an inbound message, empty when it has no content object. -/
def extractedText (msg : InboundMsg) : Str :=
  match msg.message with
  | none => []
  | some c => extractText c

/-- Outcome of the completion API call made by getAIResponse. -/
inductive AIOutcome where
  | success (content : Option Str)
  | failure (errMsg : Str)
deriving DecidableEq

/-- Apostrophe character, escaped in the JS source strings. -/
def apos : Char := Char.ofNat 39

/-- Busy apology returned when the error message mentions a rate limit. -/
def busyApology : Str :=
  "⏳ I".data ++ [apos] ++ "m busy right now. Please try again in a moment!".data

/-- Apology returned when the error message mentions an invalid credential. -/
def invalidApology : Str := "🔑 My AI brain needs a checkup. Try again soon!".data

/-- Generic apology for any other completion failure. -/
def genericApology : Str :=
  "🤖 AI service is having issues. I".data ++ [apos] ++ "ll be back!".data

/-- Fallback reply when the completion succeeds with missing or empty content. -/
def emptyFallback : Str := "Sorry, I could not process that request.".data

/-- The getAIResponse function, with the network call abstracted as its
outcome: on success return the trimmed content or the fallback, on failure
classify the error message by substring. -/
def getAIResponse (outcome : AIOutcome) : Str :=
  match outcome with
  | .success content => jsOrStr (content.map trim) emptyFallback
  | .failure errMsg =>
      if includes "rate limit".data errMsg then busyApology
      else if includes "invalid".data errMsg then invalidApology
      else genericApology

/-- Payload passed to sock.sendMessage. -/
structure ReplyMessage where
  text : Str
  mentions : List Str
deriving DecidableEq

/-- One invocation of sock.sendMessage: destination jid and payload. -/
structure SendCall where
  jid : Str
  payload : ReplyMessage
deriving DecidableEq

/-- Observable effects of one handleMessage run: the completion call made
(message text and context), and the transport sends performed. -/
structure HandleResult where
  aiCall : Option (Str × Str)
  sends : List SendCall
deriving DecidableEq

/-- The no-op result: no completion call, no send. -/
def noEffects : HandleResult := { aiCall := none, sends := [] }

/-- Bot-name mention condition used for group mentions in handleMessage:
the lowercased trimmed text contains "@karl" or "karl". -/
def mentionsBotName (lowerText : Str) : Bool :=
  includes "@karl".data lowerText || includes "karl".data lowerText

/-- The handleMessage method, with the completion call outcome abstracted:
ignore self or contentless or short messages, test the trigger, build the
context, obtain the AI reply and send it prefixed with the bot name,
mentioning the original sender in groups that named the bot. -/
def handleMessage (msg : InboundMsg) (ai : AIOutcome) : HandleResult :=
  match msg.message with
  | none => noEffects
  | some content =>
      if msg.key.fromMe then noEffects
      else
        let fromJid := msg.key.remoteJid
        let isGroup := "@g.us".data.isSuffixOf fromJid
        let pushName := jsOrStr msg.pushName "User".data
        let text := extractText content
        if text.isEmpty ∨ text.length < 2 then noEffects
        else
          let lowerText := trim (toLower text)
          if (triggers lowerText).any id then
            let context :=
              if isGroup then
                "Group chat with ".data ++ pushName ++
                  ". Keep it appropriate for groups.".data
              else "Direct message from ".data ++ pushName ++ ".".data
            let aiReply := getAIResponse ai
            let replyText := BOT_NAME ++ ": ".data ++ aiReply
            let mentions :=
              if isGroup && mentionsBotName lowerText then [msg.key.participant]
              else []
            { aiCall := some (text, context),
              sends := [{ jid := fromJid,
                          payload := { text := replyText, mentions := mentions } }] }
          else noEffects

/-- Claim C2: an inbound event whose extracted text is absent or shorter
than two characters, or which comes from the bot itself, causes no send
and no completion call. -/
theorem handleMessage_noop (msg : InboundMsg) (ai : AIOutcome)
    (h : (extractedText msg).length < 2 ∨ msg.key.fromMe = true) :
    handleMessage msg ai = noEffects := by
  unfold handleMessage
  cases hm : msg.message with
  | none => rfl
  | some c =>
      cases hf : msg.key.fromMe with
      | true => simp
      | false =>
          have hlen : (extractText c).length < 2 := by
            rcases h with h | h
            · simpa [extractedText, hm] using h
            · rw [hf] at h
              exact absurd h (by simp)
          simp [hlen]

/-- Witness for claim C2 at a concrete self-echo message. -/
theorem handleMessage_noop_witness :
    handleMessage
      { message := some { conversation := some "karl hi".data, extendedText := none,
                          imageCaption := none, videoCaption := none },
        key := { remoteJid := "12345@s.whatsapp.net".data, fromMe := true,
                 participant := [] },
        pushName := none }
      (.failure []) = noEffects :=
  handleMessage_noop _ _ (Or.inr rfl)

/-- Shape of the handleMessage result when the message passes every guard:
one completion call and one send with the bot-name-prefixed reply. -/
theorem handleMessage_sends (msg : InboundMsg) (c : MessageContent) (ai : AIOutcome)
    (hm : msg.message = some c) (hf : msg.key.fromMe = false)
    (hlen : 2 ≤ (extractText c).length)
    (htrig : (triggers (trim (toLower (extractText c)))).any id = true) :
    handleMessage msg ai =
      { aiCall := some (extractText c,
          if "@g.us".data.isSuffixOf msg.key.remoteJid then
            "Group chat with ".data ++ jsOrStr msg.pushName "User".data ++
              ". Keep it appropriate for groups.".data
          else
            "Direct message from ".data ++ jsOrStr msg.pushName "User".data ++
              ".".data),
        sends := [{ jid := msg.key.remoteJid,
                    payload :=
                      { text := BOT_NAME ++ ": ".data ++ getAIResponse ai,
                        mentions :=
                          if "@g.us".data.isSuffixOf msg.key.remoteJid &&
                              mentionsBotName (trim (toLower (extractText c))) then
                            [msg.key.participant]
                          else [] } }] } := by
  unfold handleMessage
  have hne : ¬(extractText c = [] ∨ (extractText c).length < 2) := by
    rintro (h | h)
    · rw [h] at hlen
      exact absurd hlen (by simp)
    · omega
  simp [hm, hf, hne, htrig]

/-- Claim C3: when the completion client fails with an error mentioning a
rate limit, a triggering message still produces exactly one send, whose
text is the busy apology prefixed with the bot display name. -/
theorem handleMessage_rateLimit (msg : InboundMsg) (c : MessageContent) (errMsg : Str)
    (hm : msg.message = some c) (hf : msg.key.fromMe = false)
    (hlen : 2 ≤ (extractText c).length)
    (htrig : (triggers (trim (toLower (extractText c)))).any id = true)
    (herr : includes "rate limit".data errMsg = true) :
    (handleMessage msg (.failure errMsg)).sends.length = 1 ∧
    (handleMessage msg (.failure errMsg)).sends.map (fun s => s.payload.text)
      = [BOT_NAME ++ ": ".data ++ busyApology] := by
  rw [handleMessage_sends msg c _ hm hf hlen htrig]
  simp [getAIResponse, herr]

/-- Witness for claim C3 at a concrete direct message and rate-limit error. -/
theorem handleMessage_rateLimit_witness :
    (handleMessage
      { message := some { conversation := some "karl hello".data, extendedText := none,
                          imageCaption := none, videoCaption := none },
        key := { remoteJid := "12345@s.whatsapp.net".data, fromMe := false,
                 participant := [] },
        pushName := some "Ann".data }
      (.failure "rate limit exceeded".data)).sends.map (fun s => s.payload.text)
      = [BOT_NAME ++ ": ".data ++ busyApology] :=
  (handleMessage_rateLimit _ _ _ rfl rfl (by decide) (by decide) (by decide)).2

/-- Claim C6: every outgoing reply text is the bot display name, a colon
and the AI reply, and the original sender is attached as a mention target
exactly when the event is a group message whose lowercased trimmed text
names the bot ("@karl" or "karl") — the source's mention condition, read
as the formalisation of "explicitly mentioned the bot". -/
theorem handleMessage_reply_shape (msg : InboundMsg) (c : MessageContent) (ai : AIOutcome)
    (hm : msg.message = some c) (hf : msg.key.fromMe = false)
    (hlen : 2 ≤ (extractText c).length)
    (htrig : (triggers (trim (toLower (extractText c)))).any id = true) :
    (handleMessage msg ai).sends.map (fun s => s.payload.text)
      = [BOT_NAME ++ ": ".data ++ getAIResponse ai] ∧
    (handleMessage msg ai).sends.map (fun s => s.payload.mentions)
      = [if "@g.us".data.isSuffixOf msg.key.remoteJid &&
            mentionsBotName (trim (toLower (extractText c))) then
           [msg.key.participant]
         else []] := by
  rw [handleMessage_sends msg c ai hm hf hlen htrig]
  simp

/-- Witness for claim C6 at a concrete group message naming the bot. -/
theorem handleMessage_reply_shape_witness :
    (handleMessage
      { message := some { conversation := some "karl hello".data, extendedText := none,
                          imageCaption := none, videoCaption := none },
        key := { remoteJid := "123-456@g.us".data, fromMe := false,
                 participant := "777@s.whatsapp.net".data },
        pushName := some "Bob".data }
      (.success (some "hi there".data))).sends.map (fun s => s.payload.mentions)
      = [["777@s.whatsapp.net".data]] := by
  have h := (handleMessage_reply_shape
    { message := some { conversation := some "karl hello".data, extendedText := none,
                        imageCaption := none, videoCaption := none },
      key := { remoteJid := "123-456@g.us".data, fromMe := false,
               participant := "777@s.whatsapp.net".data },
      pushName := some "Bob".data }
    { conversation := some "karl hello".data, extendedText := none,
      imageCaption := none, videoCaption := none }
    (.success (some "hi there".data)) rfl rfl (by decide) (by decide)).2
  rw [h]
  decide

/-- Baileys DisconnectReason.loggedOut status code. -/
def DisconnectReason.loggedOut : Nat := 401

/-- Mutable fields of the WhatsAppBot instance touched by the
connection.update handler. -/
structure BotState where
  isConnected : Bool
  reconnectAttempts : Nat
deriving DecidableEq

/-- Field values set by the WhatsAppBot constructor. -/
def WhatsAppBot.new : BotState := { isConnected := false, reconnectAttempts := 0 }

/-- The maxReconnectAttempts field set by the constructor. -/
def maxReconnectAttempts : Nat := 5

/-- Side effects the connection.update handler can perform. -/
inductive ConnAction where
  | pairRequest
  | scheduleReconnect (delayMs : Nat)
  | fatalReport
deriving DecidableEq

/-- Connection.update events: a close with its status code, or an open
carrying whether the credentials are already registered. -/
inductive ConnEvent where
  | close (statusCode : Nat)
  | opened (registered : Bool)
deriving DecidableEq

/-- The connection.update handler of WhatsAppBot: on close, request pairing
when logged out, otherwise schedule a reconnect with delay 5000 times the
incremented attempt counter while under the maximum, else report the fatal
condition; on open, reset the counter and request pairing when the
credentials are not yet registered. -/
def connectionUpdate (s : BotState) : ConnEvent → BotState × List ConnAction
  | .close statusCode =>
      let s1 : BotState := { s with isConnected := false }
      if statusCode = DisconnectReason.loggedOut then
        (s1, [ConnAction.pairRequest])
      else if s1.reconnectAttempts < maxReconnectAttempts then
        let n := s1.reconnectAttempts + 1
        ({ s1 with reconnectAttempts := n }, [ConnAction.scheduleReconnect (5000 * n)])
      else
        (s1, [ConnAction.fatalReport])
  | .opened registered =>
      let s1 : BotState := { s with isConnected := true, reconnectAttempts := 0 }
      (s1, if registered then [] else [ConnAction.pairRequest])

/-- The shouldReconnect test of the index.js connection.update handler. -/
def shouldReconnect (statusCode : Nat) : Bool :=
  statusCode != DisconnectReason.loggedOut

/-- Side effect of the index.js close handler: restart the bot or nothing. -/
inductive IndexAction where
  | restartBot
deriving DecidableEq

/-- The index.js close handler: restart startBot exactly when the close
reason is not logged-out. -/
def indexCloseActions (statusCode : Nat) : List IndexAction :=
  if shouldReconnect statusCode then [IndexAction.restartBot] else []

/-- Claim C4: on a close whose reason is not logged-out, while the counter
is under the maximum it is incremented and a reconnect is scheduled with
delay attempt-number times 5000 ms; once the maximum is reached no retry
is scheduled and the fatal condition is reported. -/
theorem reconnect_backoff (s : BotState) (code : Nat)
    (hcode : code ≠ DisconnectReason.loggedOut) :
    (s.reconnectAttempts < maxReconnectAttempts →
      (connectionUpdate s (.close code)).1.reconnectAttempts
          = s.reconnectAttempts + 1 ∧
      (connectionUpdate s (.close code)).2
          = [ConnAction.scheduleReconnect (5000 * (s.reconnectAttempts + 1))]) ∧
    (maxReconnectAttempts ≤ s.reconnectAttempts →
      (connectionUpdate s (.close code)).2 = [ConnAction.fatalReport] ∧
      (connectionUpdate s (.close code)).1.reconnectAttempts
          = s.reconnectAttempts) := by
  constructor
  · intro h
    simp [connectionUpdate, hcode, h]
  · intro h
    simp [connectionUpdate, hcode, Nat.not_lt.mpr h]

/-- Witness for claim C4: the third attempt is scheduled at 15000 ms, and
after the fifth no retry is scheduled. -/
theorem reconnect_backoff_witness :
    (connectionUpdate { isConnected := true, reconnectAttempts := 2 }
        (.close 428)).2 = [ConnAction.scheduleReconnect 15000] ∧
    (connectionUpdate { isConnected := true, reconnectAttempts := 5 }
        (.close 428)).2 = [ConnAction.fatalReport] :=
  ⟨((reconnect_backoff _ 428 (by decide)).1 (by decide)).2,
   ((reconnect_backoff _ 428 (by decide)).2 (by decide)).1⟩

/-- Claim C5: on a close whose reason is logged-out, the reconnect counter
is unchanged, the only action is a pairing request (so no reconnect is
scheduled), and the index.js handler likewise restarts nothing. -/
theorem loggedOut_close (s : BotState) :
    (connectionUpdate s (.close DisconnectReason.loggedOut)).1.reconnectAttempts
        = s.reconnectAttempts ∧
    (connectionUpdate s (.close DisconnectReason.loggedOut)).2
        = [ConnAction.pairRequest] ∧
    indexCloseActions DisconnectReason.loggedOut = [] := by
  refine ⟨?_, ?_, ?_⟩ <;> simp [connectionUpdate, indexCloseActions, shouldReconnect]

/-- Run of the connection handler over a list of events. -/
def runEvents (s : BotState) (evs : List ConnEvent) : BotState :=
  evs.foldl (fun st e => (connectionUpdate st e).1) s

/-- One step of the handler keeps the counter at or under the maximum. -/
theorem step_le (s : BotState) (e : ConnEvent)
    (h : s.reconnectAttempts ≤ maxReconnectAttempts) :
    (connectionUpdate s e).1.reconnectAttempts ≤ maxReconnectAttempts := by
  cases e with
  | close code =>
      by_cases hc : code = DisconnectReason.loggedOut
      · simpa [connectionUpdate, hc] using h
      · by_cases hlt : s.reconnectAttempts < maxReconnectAttempts
        · simp [connectionUpdate, hc, hlt]
          omega
        · simpa [connectionUpdate, hc, hlt] using h
  | opened registered =>
      simp [connectionUpdate]

/-- The counter stays bounded along any run from a bounded start. -/
theorem runEvents_le (evs : List ConnEvent) :
    ∀ s : BotState, s.reconnectAttempts ≤ maxReconnectAttempts →
      (runEvents s evs).reconnectAttempts ≤ maxReconnectAttempts := by
  induction evs with
  | nil => intro s h; exact h
  | cons e rest ih =>
      intro s h
      exact ih _ (step_le s e h)

/-- Claim C9: reconnectAttempts starts at 0, never exceeds the maximum of
5 along any event trace (as a Nat it is also never negative), is reset to
0 by every open event, and is incremented only under the guard that it is
strictly below the maximum. -/
theorem reconnectAttempts_invariant (evs : List ConnEvent) :
    WhatsAppBot.new.reconnectAttempts = 0 ∧
    (runEvents WhatsAppBot.new evs).reconnectAttempts ≤ maxReconnectAttempts ∧
    (∀ (s : BotState) (r : Bool),
      (connectionUpdate s (.opened r)).1.reconnectAttempts = 0) ∧
    (∀ (s : BotState) (e : ConnEvent),
      (connectionUpdate s e).1.reconnectAttempts = s.reconnectAttempts + 1 →
      s.reconnectAttempts < maxReconnectAttempts) := by
  refine ⟨rfl, runEvents_le evs WhatsAppBot.new (by simp [WhatsAppBot.new]), ?_, ?_⟩
  · intro s r
    simp [connectionUpdate]
  · intro s e
    cases e with
    | close code =>
        by_cases hc : code = DisconnectReason.loggedOut
        · intro h
          simp [connectionUpdate, hc] at h
        · by_cases hlt : s.reconnectAttempts < maxReconnectAttempts
          · intro _
            exact hlt
          · intro h
            simp [connectionUpdate, hc, hlt] at h
    | opened registered =>
        intro h
        simp [connectionUpdate] at h

/-- Witness for claim C9: the increment guard instantiated at a counter
value of 1 and a non-logged-out close. -/
theorem reconnectAttempts_invariant_witness :
    (1 : Nat) < maxReconnectAttempts :=
  (reconnectAttempts_invariant []).2.2.2
    { isConnected := false, reconnectAttempts := 1 } (.close 428) (by decide)

/-- HTTP response as produced by the /send route, status plus error body. -/
structure HttpResponse where
  status : Nat
  error : Option Str
deriving DecidableEq

/-- The POST /send/:number route handler: reject a missing (or, because JS
treats the empty string as falsy, empty) message with 400, otherwise strip
non-digits from the number, append the network suffix and invoke
sendDirectMessage with that target and the message; its thrown error or
returned id (abstracted as sendOutcome) selects the 500 or 200 response.
The second component records the sendDirectMessage invocation. -/
def sendRoute (number : Str) (message : Option Str) (sendOutcome : Except Str Str) :
    HttpResponse × Option (Str × Str) :=
  match message with
  | none => ({ status := 400, error := some "Message required".data }, none)
  | some m =>
      if m.isEmpty then
        ({ status := 400, error := some "Message required".data }, none)
      else
        let cleanNumber := number.filter Char.isDigit ++ "@s.whatsapp.net".data
        match sendOutcome with
        | .ok _ => ({ status := 200, error := none }, some (cleanNumber, m))
        | .error e => ({ status := 500, error := some e }, some (cleanNumber, m))

/-- Counterexample to claim C7 as stated: a body carrying an empty-string
message field does have a message field, yet the handler answers 400 and
invokes no send, because the JS truthiness test rejects the empty string. -/
theorem sendRoute_empty_message :
    (sendRoute "263771234567".data (some []) (Except.ok "id1".data)).2 = none ∧
    (sendRoute "263771234567".data (some []) (Except.ok "id1".data)).1.status = 400 := by
  constructor <;> rfl

/-- Claim C7 (amended): when the message is absent or the empty string the
handler returns 400 with the Message-required error and invokes no send;
otherwise it invokes the send with the digits of the number followed by
the network suffix, and the given message. -/
theorem sendRoute_spec (number : Str) (message : Option Str)
    (outcome : Except Str Str) :
    ((message = none ∨ message = some []) →
      sendRoute number message outcome
        = ({ status := 400, error := some "Message required".data }, none)) ∧
    (∀ m : Str, message = some m → m ≠ [] →
      (sendRoute number message outcome).2
        = some (number.filter Char.isDigit ++ "@s.whatsapp.net".data, m)) := by
  constructor
  · rintro (h | h) <;> rw [h]
    · rfl
    · rfl
  · intro m hm hne
    rw [hm]
    have hne2 : ¬m.isEmpty := by
      simpa [List.isEmpty_iff] using hne
    cases outcome with
    | ok id => simp [sendRoute, hne2]
    | error e => simp [sendRoute, hne2]

/-- Witness for claim C7 (amended) at the concrete number and message of
the specification example. -/
theorem sendRoute_spec_witness :
    (sendRoute "263771234567".data (some "hi".data) (Except.ok "id1".data)).2
      = some ("263771234567@s.whatsapp.net".data, "hi".data) ∧
    sendRoute "263771234567".data none (Except.ok "id1".data)
      = ({ status := 400, error := some "Message required".data }, none) := by
  constructor
  · have h := (sendRoute_spec "263771234567".data (some "hi".data)
      (Except.ok "id1".data)).2 "hi".data rfl (by decide)
    rw [h]
    decide
  · exact (sendRoute_spec "263771234567".data none
      (Except.ok "id1".data)).1 (Or.inl rfl)

/-- Stored pairing log record, the pairing_log.json contents. -/
structure PairingRecord where
  timestamp : Str
  phone : Str
  code : Str
  status : Str
deriving DecidableEq

/-- Observable effects of requestPairingCode: the phone string passed to
the transport pairing request, if one was made, and the resulting stored
record. -/
structure PairingResult where
  requested : Option Str
  store : Option PairingRecord
deriving DecidableEq

/-- The requestPairingCode method, with the socket presence, the clock and
the transport outcome abstracted: without a socket it only warns; with one
it requests a code for the digits of the configured phone identity and on
success overwrites the stored record; on failure it only classifies and
logs the error, leaving the store unchanged. -/
def requestPairingCode (sockExists : Bool) (phone now : Str)
    (outcome : Except Str Str) (prior : Option PairingRecord) : PairingResult :=
  if !sockExists then { requested := none, store := prior }
  else
    let cleanPhone := phone.filter Char.isDigit
    match outcome with
    | .ok code =>
        { requested := some cleanPhone,
          store := some { timestamp := now, phone := phone, code := code,
                          status := "generated".data } }
    | .error _ => { requested := some cleanPhone, store := prior }

/-- Claim C8: without a socket requestPairingCode is a no-op apart from a
warning; with one it requests a code using the configured phone identity
stripped of non-digits, and on success overwrites the stored record. -/
theorem requestPairingCode_spec (sockExists : Bool) (phone now : Str)
    (outcome : Except Str Str) (prior : Option PairingRecord) :
    (sockExists = false →
      requestPairingCode sockExists phone now outcome prior
        = { requested := none, store := prior }) ∧
    (sockExists = true →
      (requestPairingCode sockExists phone now outcome prior).requested
        = some (phone.filter Char.isDigit)) ∧
    (∀ code : Str, sockExists = true → outcome = Except.ok code →
      (requestPairingCode sockExists phone now outcome prior).store
        = some { timestamp := now, phone := phone, code := code,
                 status := "generated".data }) := by
  refine ⟨?_, ?_, ?_⟩
  · intro h
    rw [h]
    rfl
  · intro h
    rw [h]
    cases outcome <;> rfl
  · intro code h ho
    rw [h, ho]
    rfl

/-- Witness for claim C8 at the configured phone identity and a successful
transport outcome. -/
theorem requestPairingCode_spec_witness :
    (requestPairingCode true "+263777965084".data "2026-10-11T00:00:00Z".data
        (Except.ok "ABCD1234".data) none).requested
      = some "263777965084".data := by
  have h := (requestPairingCode_spec true "+263777965084".data
    "2026-10-11T00:00:00Z".data (Except.ok "ABCD1234".data) none).2.1 rfl
  rw [h]
  decide

end KarlBot
